import Mathlib

set_option maxRecDepth 10000

/-!
Shallow embedding of the order-resolution engine of the restaurant-game
backend (`src/backend/app/main.py`).

Modelling choices:
* Python floats are modelled as `ℚ`, Python ints as `Int`/`Nat`.
* Timestamps are seconds since an arbitrary epoch (`Nat`); `datetime.now()`
  becomes an explicit `now` parameter.
* The external text-generation call inside `generate_consequence` is an
  oracle parameter `gen : RestrictionType → ConsequenceDict`; the dict it
  returns may be missing keys (`Option` fields), and a missing key read
  with `d["k"]` raises, which surfaces as `ServeError.internalError`,
  exactly as the `except Exception` handlers in `serve_order` turn any
  exception into an HTTP 500.  `generate_consequence` itself interpolates
  `violation.value` into its prompt BEFORE its try block, so calling it
  with the plain string "WRONG_ITEM" (which has no `.value`) raises
  AttributeError and never returns; only a RestrictionType member reaches
  the call/fallback logic, which always returns a dict.
* The stochastic violation injection
  (`if random.random() < 0.3: violations.append(random.choice(order.restrictions))`)
  is an explicit parameter `inj : Option RestrictionType`: `none` when the
  0.3 draw does not trigger, `some r` when it triggers and `random.choice`
  picked `r`.
* Python mutates `order`, `customer` and `game` objects in place; the
  embedding threads the state explicitly and returns the mutated game,
  cache and order object, including the partially mutated state reached
  when an exception interrupts the violation branch.
-/

inductive RestrictionType
  | GLUTEN | LACTOSE | VEGAN | VEGETARIAN | HALAL | KOSHER | NUT
deriving DecidableEq, Repr

inductive OrderStatus
  | PENDING | SERVED | FAILED
deriving DecidableEq, Repr

inductive PersonalityTrait
  | PATIENT | IMPATIENT | PICKY | GENEROUS | INFLUENCER | KAREN | REGULAR | FOODIE | HEALTH_CONSCIOUS
deriving DecidableEq, Repr

inductive MoodState
  | HAPPY | NEUTRAL | ANNOYED | ANGRY | HANGRY
deriving DecidableEq, Repr

inductive CustomerTier
  | FIRST_TIME | REGULAR | FREQUENT | VIP
deriving DecidableEq, Repr

/-- An entry of the `violations` list built in `serve_order`: either the
string `"WRONG_ITEM"` or a member of the order's `RestrictionType` list. -/
inductive Violation
  | WRONG_ITEM
  | dietary (r : RestrictionType)
deriving DecidableEq, Repr

structure CustomerReview where
  rating : Int
  comment : String
  timestamp : Nat
  order_id : String
  incident_reported : Bool
deriving DecidableEq, Repr

structure CustomerProfile where
  id : String
  name : String
  personality_traits : List PersonalityTrait
  current_mood : MoodState := MoodState.NEUTRAL
  dietary_restrictions : List RestrictionType
  favorite_items : List String := []
  disliked_items : List String := []
  average_spending : ℚ := 0
  total_spent : ℚ := 0
  reviews_given : List CustomerReview := []
  current_tier : CustomerTier := CustomerTier.FIRST_TIME
  patience_threshold : Int := 5
  tip_tendency : ℚ := 15 / 100
  influence_score : Int := 1
  satisfaction_history : List ℚ := []
deriving DecidableEq, Repr

structure Order where
  id : String
  customer_id : String
  customer_profile : CustomerProfile
  restrictions : List RestrictionType
  items_ordered : List String
  status : OrderStatus
  created_at : Nat
  wait_time : Int := 0
  total_price : ℚ := 0
deriving DecidableEq, Repr

/-- A record appended to `game.mistakes` in the violation branch. -/
structure Mistake where
  order_id : String
  violation : Violation
  consequence_description : String
  timestamp : Nat
deriving DecidableEq, Repr

structure GameState where
  player_id : String
  score : Int := 0
  active_orders : List Order := []
  completed_orders : Nat := 0
  mistakes : List Mistake := []
  money : ℚ := 1000
  reputation : ℚ := 50
  customers : List (String × CustomerProfile) := []
  daily_customers_served : Nat := 0
  total_customers_served : Nat := 0
deriving DecidableEq, Repr

/-- The JSON dict produced by `generate_consequence`.  Fields are `Option`
because the dict comes from an external generation call and the code reads
most keys with `d["k"]` (raising `KeyError` when absent);
`reputation_impact` alone is read with `d.get("reputation_impact", -5)`. -/
structure ConsequenceDict where
  description : Option String := none
  visual_effect : Option String := none
  sound_effect : Option String := none
  money_impact : Option ℚ := none
  score_impact : Option Int := none
  reputation_impact : Option ℚ := none
deriving DecidableEq, Repr

/-- The flags of the `order_result` dict read by
`CustomerManager.calculate_satisfaction` via `.get(key, False)`. -/
structure OrderResultFlags where
  perfect : Bool := false
  has_mistakes : Bool := false
  dietary_violation : Bool := false
deriving DecidableEq, Repr

inductive ServeError
  | notFoundGame | notFoundOrder | notFoundCustomer | internalError
deriving DecidableEq, Repr

structure Reward where
  money : ℚ
  tip : ℚ
  score : Int
deriving DecidableEq, Repr

/-- The response body of `serve_order` (the game-state snapshot fields of
the JSON response are derivable from the returned `GameState` and are not
duplicated here). -/
structure ServeResult where
  success : Bool
  consequence : Option ConsequenceDict
  reward : Option Reward
  customer_satisfaction : Int
  customer_mood : MoodState
deriving DecidableEq, Repr

/-- Mutable context of a serve call: the game (an entry of `games`) and the
process-wide `consequence_cache`. -/
structure ServeState where
  game : GameState
  cache : List (Violation × ConsequenceDict)
deriving DecidableEq, Repr

/-- Outcome of a serve call: the HTTP-level result, the game and cache as
mutated (possibly partially, when an error occurred), and the `order`
object resolved by the call (mutated in place by the code). -/
structure ServeStep where
  result : Except ServeError ServeResult
  game : GameState
  cache : List (Violation × ConsequenceDict)
  order : Option Order
deriving Repr

/-- Python `dict` lookup (used for `game.customers.get(...)` and
`consequence_cache` membership / indexing). -/
def lookupD {α β : Type} [BEq α] (k : α) : List (α × β) → Option β
  | [] => none
  | (a, b) :: t => if a == k then some b else lookupD k t

/-- `wait_time = (datetime.now() - order.created_at).seconds // 60`.
`timedelta.seconds` is the seconds component after whole days are split
off, hence the `% 86400`. -/
def compute_wait_time (now created_at : Nat) : Nat :=
  ((now - created_at) % 86400) / 60

/-- Modelled from the spec: "Compute wait time = elapsed whole minutes
since order creation" (§4.2 step 3).  This is the spec's reading, to be
compared with `compute_wait_time`, the code's computation. -/
def spec_wait_minutes (now created_at : Nat) : Nat :=
  (now - created_at) / 60

/-- In-place mutation of the resolved order object, as seen through
`game.active_orders` (the list holds the same object the code mutates). -/
def updOrder (g : GameState) (oid : String) (o1 : Order) : GameState :=
  { g with active_orders := g.active_orders.map (fun o => if o.id == oid then o1 else o) }

/-- In-place mutation of the customer object held in `game.customers`. -/
def setCustomer (g : GameState) (cid : String) (c : CustomerProfile) : GameState :=
  { g with customers := g.customers.map (fun p => if p.1 == cid then (p.1, c) else p) }

/-- Lines 426-434: each served item not in `order.items_ordered` appends
`"WRONG_ITEM"`; then the stochastic injection (when triggered) appends one
of the order's restrictions. -/
def detectViolations (items_served : List String) (items_ordered : List String)
    (inj : Option RestrictionType) : List Violation :=
  (items_served.filter (fun i => ! items_ordered.contains i)).map (fun _ => Violation.WRONG_ITEM)
    ++ (match inj with
        | none => []
        | some r => [Violation.dietary r])

/-- `satisfaction = max(0, min(100, 50 - len(violations) * 20))` (line 449). -/
def violationSat (n : Nat) : Int :=
  max 0 (min 100 (50 - (n : Int) * 20))

/-- Lines 465-492: game-state update, mistake record, status change,
removal from `active_orders`, and response of the violation branch.
Each missing dict key aborts with the state mutated so far. -/
def violationTail (cq : ConsequenceDict) (v : Violation) (sat : Int) (now : Nat)
    (oid : String) (order1 : Order) (mood : MoodState) (g : GameState)
    (cache : List (Violation × ConsequenceDict)) : ServeStep :=
  match cq.score_impact with
  | none => ⟨Except.error ServeError.internalError, g, cache, some order1⟩
  | some si =>
    let g1 := { g with score := max 0 (g.score + si) }
    match cq.money_impact with
    | none => ⟨Except.error ServeError.internalError, g1, cache, some order1⟩
    | some mi =>
      let g2 := { g1 with money := max 0 (g1.money + mi) }
      let g3 := { g2 with reputation := max 0 (min 100 (g2.reputation + cq.reputation_impact.getD (-5))) }
      match cq.description with
      | none => ⟨Except.error ServeError.internalError, g3, cache, some order1⟩
      | some desc =>
        let g4 := { g3 with mistakes := g3.mistakes ++
          [({ order_id := oid, violation := v, consequence_description := desc,
              timestamp := now } : Mistake)] }
        let order2 := { order1 with status := OrderStatus.FAILED }
        let g5 := { g4 with active_orders := g4.active_orders.filter (fun o => o.id != oid) }
        ⟨Except.ok { success := false, consequence := some cq, reward := none,
                     customer_satisfaction := sat, customer_mood := mood },
         g5, cache, some order2⟩

/-- Lines 448-462: satisfaction, customer history append and (for
satisfaction < 30) the review whose comment reads `consequence["description"]`,
then the rest of the violation branch. -/
def violationWith (cq : ConsequenceDict) (vls : List Violation) (v : Violation)
    (now : Nat) (oid : String) (order1 : Order) (customer : CustomerProfile)
    (game1 : GameState) (cache : List (Violation × ConsequenceDict)) : ServeStep :=
  let sat := violationSat vls.length
  let customer1 := { customer with
    satisfaction_history := customer.satisfaction_history ++ [(sat : ℚ)] }
  let game2 := setCustomer game1 order1.customer_id customer1
  if sat < 30 then
    match cq.description with
    | none => ⟨Except.error ServeError.internalError, game2, cache, some order1⟩
    | some desc =>
      let customer2 := { customer1 with reviews_given := customer1.reviews_given ++
        [{ rating := max 1 (sat / 20), comment := desc, timestamp := now,
           order_id := oid, incident_reported := true }] }
      violationTail cq v sat now oid order1 customer.current_mood
        (setCustomer game2 order1.customer_id customer2) cache
  else
    violationTail cq v sat now oid order1 customer.current_mood game2 cache

/-- `generate_consequence` (lines 298-345): its first statement builds the
prompt f-string reading `violation.value` BEFORE the try block.  The plain
string "WRONG_ITEM" has no `.value`, so the call raises AttributeError
(surfacing as an internal error) and never returns; for a RestrictionType
member `.value` succeeds and the function always returns a dict — either
the parsed AI response (whose "consequence" object may lack keys) or the
complete deterministic fallback; that returned dict is the oracle `gen`. -/
def generate_consequence (gen : RestrictionType → ConsequenceDict) :
    Violation → Except ServeError ConsequenceDict
  | Violation.WRONG_ITEM => Except.error ServeError.internalError
  | Violation.dietary r => Except.ok (gen r)

/-- Lines 436-446: pick the first violation as representative cause and
obtain the consequence from `consequence_cache`, generating and caching it
on a miss; a crash inside `generate_consequence` aborts the branch with
the state mutated so far (the `except` at line 494 turns it into a 500). -/
def violationBranch (gen : RestrictionType → ConsequenceDict) (vls : List Violation)
    (v : Violation) (now : Nat) (oid : String) (order1 : Order)
    (customer : CustomerProfile) (game1 : GameState)
    (cache : List (Violation × ConsequenceDict)) : ServeStep :=
  match lookupD v cache with
  | none =>
    match generate_consequence gen v with
    | Except.error e => ⟨Except.error e, game1, cache, some order1⟩
    | Except.ok cq =>
      violationWith cq vls v now oid order1 customer game1 ((v, cq) :: cache)
  | some cq => violationWith cq vls v now oid order1 customer game1 cache

/-- Lines 502-510: `base = 80 - wait*2`, `-wait*3` if `"IMPATIENT"` in the
traits, `+10` if `"FOODIE"` in the traits (before clamping). -/
def serve_base_satisfaction (traits : List PersonalityTrait) (wait_time : Int) : Int :=
  let b0 : Int := 80 - wait_time * 2
  let b1 := if PersonalityTrait.IMPATIENT ∈ traits then b0 - wait_time * 3 else b0
  if PersonalityTrait.FOODIE ∈ traits then b1 + 10 else b1

/-- `satisfaction = max(0, min(100, base_satisfaction))` (line 510). -/
def successSat (customer : CustomerProfile) (order1 : Order) : Int :=
  max 0 (min 100 (serve_base_satisfaction customer.personality_traits order1.wait_time))

/-- `tip = (order.total_price * customer.tip_tendency) * (satisfaction / 100)`
(lines 513-515). -/
def successTip (customer : CustomerProfile) (order1 : Order) : ℚ :=
  (order1.total_price * customer.tip_tendency) * ((successSat customer order1 : Int) / 100 : ℚ)

/-- `for item in items_served: if item not in favorites: favorites.append(item)`. -/
def addFavorites (favs : List String) (items : List String) : List String :=
  items.foldl (fun fs i => if fs.contains i then fs else fs ++ [i]) favs

/-- Lines 517-536: the customer-profile mutations of the success branch. -/
def successCustomer (now : Nat) (oid : String) (items : List String)
    (customer : CustomerProfile) (order1 : Order) : CustomerProfile :=
  let sat := successSat customer order1
  let tip := successTip customer order1
  let c1 := { customer with
    satisfaction_history := customer.satisfaction_history ++ [(sat : ℚ)],
    total_spent := customer.total_spent + (order1.total_price + tip) }
  let c2 := if 80 < sat then { c1 with favorite_items := addFavorites c1.favorite_items items }
            else c1
  if 90 < sat ∨ sat < 30 then
    { c2 with reviews_given := c2.reviews_given ++
        [{ rating := max 1 (sat / 20),
           comment := if 90 < sat then "Excellent service!" else "Disappointing experience",
           timestamp := now, order_id := oid, incident_reported := decide (sat < 30) }] }
  else c2

/-- Lines 498-565: the success branch of `serve_order`. -/
def successBranch (now : Nat) (oid : String) (items : List String) (order1 : Order)
    (customer : CustomerProfile) (game1 : GameState)
    (cache : List (Violation × ConsequenceDict)) : ServeStep :=
  let sat := successSat customer order1
  let tip := successTip customer order1
  let game2 := setCustomer game1 order1.customer_id (successCustomer now oid items customer order1)
  let game3 := { game2 with
    score := game2.score + (100 + sat / 2),
    money := game2.money + (order1.total_price + tip),
    completed_orders := game2.completed_orders + 1,
    reputation := min 100 (game2.reputation + (((sat : ℚ) - 50) / 20)),
    active_orders := game2.active_orders.filter (fun o => o.id != oid) }
  ⟨Except.ok { success := true, consequence := none,
               reward := some { money := order1.total_price + tip, tip := tip,
                                score := 100 + sat / 2 },
               customer_satisfaction := sat, customer_mood := customer.current_mood },
   game3, cache, some { order1 with status := OrderStatus.SERVED }⟩

/-- The resolved order object after `order.wait_time = wait_time` (line 418). -/
def orderWithWait (o : Order) (now : Nat) : Order :=
  { o with wait_time := (compute_wait_time now o.created_at : Int) }

/-- `serve_order` after the order has been found: wait-time mutation,
customer lookup, violation detection and branch dispatch. -/
def serveFound (gen : RestrictionType → ConsequenceDict) (inj : Option RestrictionType)
    (now : Nat) (oid : String) (items : List String) (st : ServeState)
    (order0 : Order) : ServeStep :=
  let order1 := orderWithWait order0 now
  let game1 := updOrder st.game oid order1
  match lookupD order1.customer_id game1.customers with
  | none => ⟨Except.error ServeError.notFoundCustomer, game1, st.cache, some order1⟩
  | some customer =>
    match detectViolations items order1.items_ordered inj with
    | [] => successBranch now oid items order1 customer game1 st.cache
    | v :: vs => violationBranch gen (v :: vs) v now oid order1 customer game1 st.cache

/-- The `serve_order` endpoint body (lines 397-575), for a game that
exists (`games[game_id]` resolution is the caller's dict lookup and is not
re-modelled here; a missing game is `ServeError.notFoundGame` before this
function runs). -/
def serve_order (gen : RestrictionType → ConsequenceDict) (inj : Option RestrictionType)
    (now : Nat) (oid : String) (items : List String) (st : ServeState) : ServeStep :=
  match st.game.active_orders.find? (fun x => x.id == oid) with
  | none => ⟨Except.error ServeError.notFoundOrder, st.game, st.cache, none⟩
  | some order0 => serveFound gen inj now oid items st order0

/-- `CustomerManager.calculate_satisfaction` (lines 211-233). -/
def calculate_satisfaction (customer : CustomerProfile) (order_result : OrderResultFlags)
    (wait_time : Int) : ℚ :=
  let base0 : ℚ := 70
  let base1 := if PersonalityTrait.IMPATIENT ∈ customer.personality_traits
    then base0 - ((wait_time : ℚ) / (customer.patience_threshold : ℚ)) * 10
    else base0
  let base2 := if order_result.perfect then base1 + 20
    else if order_result.has_mistakes then base1 - 30
    else base1
  let base3 := if order_result.dietary_violation then 0 else base2
  max 0 (min 100 base3)

/-- Every satisfaction value recorded in any customer's history is in [0,100]. -/
def satHistOK (g : GameState) : Prop :=
  ∀ p ∈ g.customers, ∀ s ∈ (p.2 : CustomerProfile).satisfaction_history, 0 ≤ s ∧ s ≤ 100

/-- Money and score are non-negative. -/
def moneyScoreOK (g : GameState) : Prop :=
  0 ≤ g.money ∧ 0 ≤ g.score

/-- Every active order has a non-negative total price (menu prices are
non-negative per the data model). -/
def ordersPriceOK (g : GameState) : Prop :=
  ∀ o ∈ g.active_orders, 0 ≤ (o : Order).total_price

/-- Every stored customer has a non-negative tip tendency (the pydantic
field constraint `ge=0`). -/
def tipTendencyOK (g : GameState) : Prop :=
  ∀ p ∈ g.customers, 0 ≤ (p.2 : CustomerProfile).tip_tendency

instance : DecidableEq (Except ServeError ServeResult) := fun a b =>
  match a, b with
  | Except.ok x, Except.ok y =>
    if h : x = y then Decidable.isTrue (by rw [h])
    else Decidable.isFalse (fun hc => h (Except.ok.inj hc))
  | Except.error x, Except.error y =>
    if h : x = y then Decidable.isTrue (by rw [h])
    else Decidable.isFalse (fun hc => h (Except.error.inj hc))
  | Except.ok _, Except.error _ => Decidable.isFalse (fun hc => Except.noConfusion hc)
  | Except.error _, Except.ok _ => Decidable.isFalse (fun hc => Except.noConfusion hc)

/-! Concrete fixtures used by counterexamples and witnesses. -/

def cust0 : CustomerProfile :=
  { id := "c1", name := "Ada", personality_traits := [], dietary_restrictions := [],
    tip_tendency := 1 / 10 }

def custFoodie : CustomerProfile :=
  { cust0 with personality_traits := [PersonalityTrait.FOODIE] }

def ord0 : Order :=
  { id := "o1", customer_id := "c1", customer_profile := cust0,
    restrictions := [RestrictionType.NUT], items_ordered := ["A", "B"],
    status := OrderStatus.PENDING, created_at := 0, total_price := 10 }

def game0 : GameState :=
  { player_id := "g1", active_orders := [ord0], customers := [("c1", cust0)] }

def st0 : ServeState := { game := game0, cache := [] }

/-- A generation oracle that always returns the fallback-shaped
consequence dict of `generate_consequence` (all keys present). -/
def gen0 : RestrictionType → ConsequenceDict := fun _ =>
  { description := some "Customer is unhappy", visual_effect := some "angry_customer",
    sound_effect := some "complaint", money_impact := some (-50),
    score_impact := some (-100), reputation_impact := some (-5) }

/-- A generation oracle returning a malformed dict (the external call
answered with a JSON object missing the numeric impact keys). -/
def genBad : RestrictionType → ConsequenceDict := fun _ => { description := some "d" }

def gameRep0 : GameState := { game0 with reputation := 0 }

def stRep : ServeState := { game := gameRep0, cache := [] }

/-- The response of the successful serve of `ord0` with both items at
`now = 0`: satisfaction 80, tip 10 · 0.1 · 0.8 = 4/5. -/
def r0 : ServeResult :=
  { success := true, consequence := none,
    reward := some { money := 54 / 5, tip := 4 / 5, score := 140 },
    customer_satisfaction := 80, customer_mood := MoodState.NEUTRAL }

/-! Small facts about the state helpers. -/

theorem contains_iff_mem (l : List String) (a : String) : l.contains a = true ↔ a ∈ l :=
  List.elem_iff

@[simp] theorem updOrder_customers (g : GameState) (oid : String) (o1 : Order) :
    (updOrder g oid o1).customers = g.customers := rfl

@[simp] theorem updOrder_score (g : GameState) (oid : String) (o1 : Order) :
    (updOrder g oid o1).score = g.score := rfl

@[simp] theorem updOrder_money (g : GameState) (oid : String) (o1 : Order) :
    (updOrder g oid o1).money = g.money := rfl

@[simp] theorem updOrder_reputation (g : GameState) (oid : String) (o1 : Order) :
    (updOrder g oid o1).reputation = g.reputation := rfl

@[simp] theorem updOrder_mistakes (g : GameState) (oid : String) (o1 : Order) :
    (updOrder g oid o1).mistakes = g.mistakes := rfl

@[simp] theorem setCustomer_score (g : GameState) (cid : String) (c : CustomerProfile) :
    (setCustomer g cid c).score = g.score := rfl

@[simp] theorem setCustomer_money (g : GameState) (cid : String) (c : CustomerProfile) :
    (setCustomer g cid c).money = g.money := rfl

@[simp] theorem setCustomer_reputation (g : GameState) (cid : String) (c : CustomerProfile) :
    (setCustomer g cid c).reputation = g.reputation := rfl

@[simp] theorem setCustomer_mistakes (g : GameState) (cid : String) (c : CustomerProfile) :
    (setCustomer g cid c).mistakes = g.mistakes := rfl

@[simp] theorem setCustomer_active_orders (g : GameState) (cid : String) (c : CustomerProfile) :
    (setCustomer g cid c).active_orders = g.active_orders := rfl

@[simp] theorem orderWithWait_id (o : Order) (now : Nat) :
    (orderWithWait o now).id = o.id := rfl

@[simp] theorem orderWithWait_customer_id (o : Order) (now : Nat) :
    (orderWithWait o now).customer_id = o.customer_id := rfl

@[simp] theorem orderWithWait_items_ordered (o : Order) (now : Nat) :
    (orderWithWait o now).items_ordered = o.items_ordered := rfl

@[simp] theorem orderWithWait_total_price (o : Order) (now : Nat) :
    (orderWithWait o now).total_price = o.total_price := rfl

theorem lookupD_prop {α β : Type} [BEq α] {P : β → Prop} :
    ∀ {l : List (α × β)} {k : α} {b : β},
      (∀ p ∈ l, P p.2) → lookupD k l = some b → P b := by
  intro l
  induction l with
  | nil => intro k b _ h; simp [lookupD] at h
  | cons hd tl ih =>
    intro k b hall h
    obtain ⟨a, b'⟩ := hd
    rw [lookupD] at h
    by_cases hq : (a == k) = true
    · rw [if_pos hq] at h
      injection h with hb
      subst hb
      exact hall (a, b') (List.mem_cons_self _ _)
    · rw [if_neg hq] at h
      exact ih (fun p hp => hall p (List.mem_cons_of_mem _ hp)) h

theorem clampInt_nonneg (lo n : Int) : 0 ≤ max 0 (min lo n) := le_max_left _ _

theorem clampInt_le (n : Int) : max 0 (min 100 n) ≤ 100 :=
  max_le (by norm_num) (min_le_left _ _)

theorem violationSat_range (n : Nat) : 0 ≤ violationSat n ∧ violationSat n ≤ 100 :=
  ⟨clampInt_nonneg _ _, clampInt_le _⟩

theorem successSat_range (c : CustomerProfile) (o : Order) :
    0 ≤ successSat c o ∧ successSat c o ≤ 100 :=
  ⟨clampInt_nonneg _ _, clampInt_le _⟩

/-! Claim theorems. -/

/-- C5: for every customer, order-result flag set and wait time,
`calculate_satisfaction` returns a value in [0,100], and a set
`dietary_violation` flag forces the result to exactly 0 regardless of the
other flags and trait modifiers. -/
theorem calculate_satisfaction_range_and_violation (c : CustomerProfile)
    (r : OrderResultFlags) (w : Int) :
    0 ≤ calculate_satisfaction c r w ∧ calculate_satisfaction c r w ≤ 100 ∧
      (r.dietary_violation = true → calculate_satisfaction c r w = 0) := by
  unfold calculate_satisfaction
  refine ⟨le_max_left _ _, max_le (by norm_num) (min_le_left _ _), ?_⟩
  intro h
  simp [h]

/-- Witness for C5 at a concrete dietary-violation input. -/
theorem calculate_satisfaction_range_and_violation_witness :
    calculate_satisfaction cust0 { dietary_violation := true, perfect := true } 3 = 0 :=
  (calculate_satisfaction_range_and_violation cust0
    { dietary_violation := true, perfect := true } 3).2.2 rfl

/-- C10: when both the `perfect` and `has_mistakes` flags are set (and no
dietary violation), only the +20 perfect bonus applies — the −30 mistakes
penalty is skipped because the `elif` gives the perfect flag precedence. -/
theorem perfect_flag_overrides_mistakes (c : CustomerProfile) (w : Int) :
    calculate_satisfaction c { perfect := true, has_mistakes := true } w =
      calculate_satisfaction c { perfect := true } w := rfl

/-- Counterexample for C6: in the generic `calculate_satisfaction`, a
customer with the FOODIE trait gets the same value as one without it (70,
not 80): the +10 foodie bonus exists only in the serve path. -/
theorem calculate_satisfaction_ignores_foodie_cex :
    calculate_satisfaction custFoodie {} 0 = 70 ∧
      calculate_satisfaction cust0 {} 0 = 70 := by
  constructor <;> with_unfolding_all rfl

/-- C6 (amended): the +10 foodie bonus is applied, before clamping, in the
serve-path satisfaction formula (`serve_base_satisfaction`), and the
generic `calculate_satisfaction` is insensitive to the FOODIE trait. -/
theorem foodie_bonus_serve_path_only :
    (∀ (traits : List PersonalityTrait) (w : Int),
        serve_base_satisfaction (PersonalityTrait.FOODIE :: traits) w =
          serve_base_satisfaction
            (traits.filter (fun t => t != PersonalityTrait.FOODIE)) w + 10)
    ∧ (∀ (c : CustomerProfile) (r : OrderResultFlags) (w : Int),
        calculate_satisfaction
            { c with personality_traits := PersonalityTrait.FOODIE :: c.personality_traits }
            r w =
          calculate_satisfaction c r w) := by
  constructor
  · intro traits w
    unfold serve_base_satisfaction
    by_cases h : PersonalityTrait.IMPATIENT ∈ traits
    · simp [h, List.mem_filter, List.mem_cons]
    · simp [h, List.mem_filter, List.mem_cons]
  · intro c r w
    unfold calculate_satisfaction
    by_cases h : PersonalityTrait.IMPATIENT ∈ c.personality_traits
    · simp [h, List.mem_cons]
    · simp [h, List.mem_cons]

/-- C9: the stored wait time is `(now - created_at).seconds // 60`, which
wraps every 24 hours; at 25 hours elapsed the code stores 60 while the
elapsed whole minutes are 1500 (`timedelta.seconds` vs `total_seconds()`).
The last conjunct evaluates the full serve at that input. -/
theorem wait_time_wraps_at_one_day :
    compute_wait_time 90000 0 = 60 ∧ spec_wait_minutes 90000 0 = 1500 ∧
      compute_wait_time 90000 0 ≠ spec_wait_minutes 90000 0 ∧
      (serve_order gen0 none 90000 "o1" ["A", "B"] st0).order =
        some { ord0 with wait_time := 60, status := OrderStatus.SERVED } := by
  refine ⟨rfl, rfl, by decide, ?_⟩
  with_unfolding_all rfl

/-- Counterexample for C1: serving only "A" against an order for
["A", "B"] (one ordered item missing, injection not triggered) is NOT
detected as a violation: the serve resolves through the success branch —
success=true, a reward is paid, and the order status becomes SERVED, not
FAILED. -/
theorem serve_missing_item_success_cex :
    (serve_order gen0 none 0 "o1" ["A"] st0).result =
        Except.ok { success := true, consequence := none,
                    reward := some { money := 54 / 5, tip := 4 / 5, score := 140 },
                    customer_satisfaction := 80, customer_mood := MoodState.NEUTRAL } ∧
      (serve_order gen0 none 0 "o1" ["A"] st0).order =
        some { ord0 with status := OrderStatus.SERVED } := by
  constructor
  · with_unfolding_all rfl
  · with_unfolding_all rfl

/-- Counterexample for C3: from a valid state (reputation 0 ∈ [0,100],
money 1000, score 0), a successful serve after a 60-minute wait drives
satisfaction to 0 and reputation to −5/2: the success branch applies
`min(100, ...)` with no floor at 0, so reputation leaves [0,100]. -/
theorem serve_reputation_floor_cex :
    (0 ≤ stRep.game.reputation ∧ stRep.game.reputation ≤ 100 ∧
        0 ≤ stRep.game.money ∧ 0 ≤ stRep.game.score) ∧
      (serve_order gen0 none 3600 "o1" ["A", "B"] stRep).game.reputation < 0 := by
  constructor
  · refine ⟨le_refl _, by norm_num [stRep, gameRep0, game0], by norm_num [stRep, gameRep0, game0], le_refl _⟩
  · with_unfolding_all decide

/-- C4: an unexpected failure mid-computation is reported as a 500
internal error, but state HAS been partially mutated.  Two reachable
failing inputs: (a) a wrong-item serve after 60 minutes crashes inside
`generate_consequence` (AttributeError on `"WRONG_ITEM".value` before its
try block), yet `order.wait_time` was already overwritten in the order
held by active_orders; (b) a stochastic dietary violation whose generated
consequence dict lacks the numeric impact keys raises KeyError at
`consequence["score_impact"]`, after the customer's satisfaction history
was already extended. -/
theorem serve_internal_error_partial_mutation :
    ((serve_order gen0 none 3600 "o1" ["C"] st0).result =
        Except.error ServeError.internalError
      ∧ (serve_order gen0 none 3600 "o1" ["C"] st0).game ≠ st0.game
      ∧ ((serve_order gen0 none 3600 "o1" ["C"] st0).game.active_orders.map
          Order.wait_time) = [60]
      ∧ (st0.game.active_orders.map Order.wait_time) = [0]
      ∧ (serve_order gen0 none 3600 "o1" ["C"] st0).cache = [])
    ∧ ((serve_order genBad (some RestrictionType.NUT) 0 "o1" ["A", "B"] st0).result =
        Except.error ServeError.internalError
      ∧ (lookupD "c1" (serve_order genBad (some RestrictionType.NUT) 0 "o1" ["A", "B"]
          st0).game.customers).map CustomerProfile.satisfaction_history = some [30]
      ∧ (lookupD "c1" st0.game.customers).map CustomerProfile.satisfaction_history =
          some []) := by
  refine ⟨⟨by with_unfolding_all rfl, by with_unfolding_all decide,
           by with_unfolding_all rfl, by with_unfolding_all rfl,
           by with_unfolding_all rfl⟩,
          by with_unfolding_all rfl, ?_, by with_unfolding_all rfl⟩
  with_unfolding_all rfl

theorem serve_order_found (gen : RestrictionType → ConsequenceDict) (inj : Option RestrictionType)
    (now : Nat) (oid : String) (items : List String) (st : ServeState) (order0 : Order)
    (hfind : st.game.active_orders.find? (fun x => x.id == oid) = some order0) :
    serve_order gen inj now oid items st = serveFound gen inj now oid items st order0 := by
  unfold serve_order
  rw [hfind]

theorem serve_order_no_order (gen : RestrictionType → ConsequenceDict) (inj : Option RestrictionType)
    (now : Nat) (oid : String) (items : List String) (st : ServeState)
    (hfind : st.game.active_orders.find? (fun x => x.id == oid) = none) :
    serve_order gen inj now oid items st =
      ⟨Except.error ServeError.notFoundOrder, st.game, st.cache, none⟩ := by
  unfold serve_order
  rw [hfind]

theorem serveFound_no_customer (gen : RestrictionType → ConsequenceDict) (inj : Option RestrictionType)
    (now : Nat) (oid : String) (items : List String) (st : ServeState) (order0 : Order)
    (hcust : lookupD order0.customer_id st.game.customers = none) :
    serveFound gen inj now oid items st order0 =
      ⟨Except.error ServeError.notFoundCustomer,
       updOrder st.game oid (orderWithWait order0 now), st.cache,
       some (orderWithWait order0 now)⟩ := by
  simp [serveFound, hcust]

theorem serveFound_success (gen : RestrictionType → ConsequenceDict) (inj : Option RestrictionType)
    (now : Nat) (oid : String) (items : List String) (st : ServeState) (order0 : Order)
    (customer : CustomerProfile)
    (hcust : lookupD order0.customer_id st.game.customers = some customer)
    (hdet : detectViolations items order0.items_ordered inj = []) :
    serveFound gen inj now oid items st order0 =
      successBranch now oid items (orderWithWait order0 now) customer
        (updOrder st.game oid (orderWithWait order0 now)) st.cache := by
  simp [serveFound, hcust, hdet]

theorem serveFound_violation (gen : RestrictionType → ConsequenceDict) (inj : Option RestrictionType)
    (now : Nat) (oid : String) (items : List String) (st : ServeState) (order0 : Order)
    (customer : CustomerProfile) (v : Violation) (vs : List Violation)
    (hcust : lookupD order0.customer_id st.game.customers = some customer)
    (hdet : detectViolations items order0.items_ordered inj = v :: vs) :
    serveFound gen inj now oid items st order0 =
      violationBranch gen (v :: vs) v now oid (orderWithWait order0 now) customer
        (updOrder st.game oid (orderWithWait order0 now)) st.cache := by
  simp [serveFound, hcust, hdet]

theorem violationBranch_hit (gen : RestrictionType → ConsequenceDict) (vls : List Violation)
    (v : Violation) (now : Nat) (oid : String) (order1 : Order)
    (customer : CustomerProfile) (game1 : GameState)
    (cache : List (Violation × ConsequenceDict)) (cq : ConsequenceDict)
    (h : lookupD v cache = some cq) :
    violationBranch gen vls v now oid order1 customer game1 cache =
      violationWith cq vls v now oid order1 customer game1 cache := by
  unfold violationBranch
  rw [h]

theorem violationBranch_miss_wrong (gen : RestrictionType → ConsequenceDict)
    (vls : List Violation) (now : Nat) (oid : String) (order1 : Order)
    (customer : CustomerProfile) (game1 : GameState)
    (cache : List (Violation × ConsequenceDict))
    (h : lookupD Violation.WRONG_ITEM cache = none) :
    violationBranch gen vls Violation.WRONG_ITEM now oid order1 customer game1 cache =
      ⟨Except.error ServeError.internalError, game1, cache, some order1⟩ := by
  unfold violationBranch
  rw [h]
  rfl

theorem violationBranch_miss_dietary (gen : RestrictionType → ConsequenceDict)
    (vls : List Violation) (r : RestrictionType) (now : Nat) (oid : String)
    (order1 : Order) (customer : CustomerProfile) (game1 : GameState)
    (cache : List (Violation × ConsequenceDict))
    (h : lookupD (Violation.dietary r) cache = none) :
    violationBranch gen vls (Violation.dietary r) now oid order1 customer game1 cache =
      violationWith (gen r) vls (Violation.dietary r) now oid order1 customer game1
        ((Violation.dietary r, gen r) :: cache) := by
  unfold violationBranch
  rw [h]
  rfl

theorem violationTail_eq (cq : ConsequenceDict) (v : Violation) (sat : Int) (now : Nat)
    (oid : String) (order1 : Order) (mood : MoodState) (g : GameState)
    (cache : List (Violation × ConsequenceDict)) (d : String) (si : Int) (mi : ℚ)
    (hd : cq.description = some d) (hs : cq.score_impact = some si)
    (hm : cq.money_impact = some mi) :
    violationTail cq v sat now oid order1 mood g cache =
      ⟨Except.ok { success := false, consequence := some cq, reward := none,
                   customer_satisfaction := sat, customer_mood := mood },
       { g with
          score := max 0 (g.score + si),
          money := max 0 (g.money + mi),
          reputation := max 0 (min 100 (g.reputation + cq.reputation_impact.getD (-5))),
          mistakes := g.mistakes ++ [({ order_id := oid, violation := v,
                                        consequence_description := d,
                                        timestamp := now } : Mistake)],
          active_orders := g.active_orders.filter (fun o => o.id != oid) },
       cache, some { order1 with status := OrderStatus.FAILED }⟩ := by
  unfold violationTail
  rw [hs, hm, hd]

theorem violationTail_ok (cq : ConsequenceDict) (v : Violation) (sat : Int) (now : Nat)
    (oid : String) (order1 : Order) (mood : MoodState) (g : GameState)
    (cache : List (Violation × ConsequenceDict)) (r : ServeResult)
    (h : (violationTail cq v sat now oid order1 mood g cache).result = Except.ok r) :
    r.success = false ∧
      (violationTail cq v sat now oid order1 mood g cache).game.active_orders =
        g.active_orders.filter (fun o => o.id != oid) ∧
      (violationTail cq v sat now oid order1 mood g cache).cache = cache ∧
      (violationTail cq v sat now oid order1 mood g cache).order =
        some { order1 with status := OrderStatus.FAILED } := by
  rcases hs : cq.score_impact with _ | si
  · simp [violationTail, hs] at h
  rcases hm : cq.money_impact with _ | mi
  · simp [violationTail, hs, hm] at h
  rcases hd : cq.description with _ | d
  · simp [violationTail, hs, hm, hd] at h
  have e := violationTail_eq cq v sat now oid order1 mood g cache d si mi hd hs hm
  rw [e] at h ⊢
  have h2 : ({ success := false, consequence := some cq, reward := none,
               customer_satisfaction := sat, customer_mood := mood } : ServeResult) = r :=
    Except.ok.inj h
  exact ⟨by rw [← h2], rfl, rfl, rfl⟩

theorem satHistOK_setCustomer (g : GameState) (cid : String) (c : CustomerProfile)
    (hg : satHistOK g) (hc : ∀ s ∈ c.satisfaction_history, 0 ≤ s ∧ s ≤ 100) :
    satHistOK (setCustomer g cid c) := by
  intro p hp
  simp only [setCustomer, List.mem_map] at hp
  obtain ⟨q, hq, rfl⟩ := hp
  by_cases h : (q.1 == cid) = true
  · simpa [h] using hc
  · simpa [h] using hg q hq

theorem violationWith_eq (cq : ConsequenceDict) (vls : List Violation) (v : Violation)
    (now : Nat) (oid : String) (order1 : Order) (customer : CustomerProfile)
    (game1 : GameState) (cache : List (Violation × ConsequenceDict)) (d : String)
    (hd : cq.description = some d) :
    ∃ g', violationWith cq vls v now oid order1 customer game1 cache =
        violationTail cq v (violationSat vls.length) now oid order1
          customer.current_mood g' cache
      ∧ g'.score = game1.score ∧ g'.money = game1.money
      ∧ g'.reputation = game1.reputation ∧ g'.mistakes = game1.mistakes
      ∧ g'.active_orders = game1.active_orders
      ∧ (satHistOK game1 →
          (∀ s ∈ customer.satisfaction_history, 0 ≤ s ∧ s ≤ 100) → satHistOK g') := by
  unfold violationWith
  by_cases hlt : violationSat vls.length < 30
  · rw [if_pos hlt, hd]
    refine ⟨_, rfl, rfl, rfl, rfl, rfl, rfl, ?_⟩
    intro hg hc
    have hrange := violationSat_range vls.length
    have hc1 : ∀ s ∈ customer.satisfaction_history ++ [((violationSat vls.length : Int) : ℚ)],
        0 ≤ s ∧ s ≤ 100 := by
      intro s hs
      rcases List.mem_append.mp hs with hs1 | hs2
      · exact hc s hs1
      · rcases List.mem_singleton.mp hs2 with rfl
        constructor
        · exact_mod_cast hrange.1
        · exact_mod_cast hrange.2
    exact satHistOK_setCustomer _ _ _ (satHistOK_setCustomer _ _ _ hg hc1) hc1
  · rw [if_neg hlt]
    refine ⟨_, rfl, rfl, rfl, rfl, rfl, rfl, ?_⟩
    intro hg hc
    have hrange := violationSat_range vls.length
    apply satHistOK_setCustomer _ _ _ hg
    intro s hs
    rcases List.mem_append.mp hs with hs1 | hs2
    · exact hc s hs1
    · rcases List.mem_singleton.mp hs2 with rfl
      constructor
      · exact_mod_cast hrange.1
      · exact_mod_cast hrange.2

theorem successBranch_result (now : Nat) (oid : String) (items : List String)
    (order1 : Order) (customer : CustomerProfile) (game1 : GameState)
    (cache : List (Violation × ConsequenceDict)) :
    (successBranch now oid items order1 customer game1 cache).result =
      Except.ok { success := true, consequence := none,
                  reward := some { money := order1.total_price + successTip customer order1,
                                   tip := successTip customer order1,
                                   score := 100 + successSat customer order1 / 2 },
                  customer_satisfaction := successSat customer order1,
                  customer_mood := customer.current_mood } := rfl

theorem successBranch_game (now : Nat) (oid : String) (items : List String)
    (order1 : Order) (customer : CustomerProfile) (game1 : GameState)
    (cache : List (Violation × ConsequenceDict)) :
    (successBranch now oid items order1 customer game1 cache).game =
      { setCustomer game1 order1.customer_id (successCustomer now oid items customer order1) with
        score := game1.score + (100 + successSat customer order1 / 2),
        money := game1.money + (order1.total_price + successTip customer order1),
        completed_orders := game1.completed_orders + 1,
        reputation := min 100 (game1.reputation + (((successSat customer order1 : Int) : ℚ) - 50) / 20),
        active_orders := game1.active_orders.filter (fun o => o.id != oid) } := rfl

theorem successBranch_cache (now : Nat) (oid : String) (items : List String)
    (order1 : Order) (customer : CustomerProfile) (game1 : GameState)
    (cache : List (Violation × ConsequenceDict)) :
    (successBranch now oid items order1 customer game1 cache).cache = cache := rfl

theorem successBranch_order (now : Nat) (oid : String) (items : List String)
    (order1 : Order) (customer : CustomerProfile) (game1 : GameState)
    (cache : List (Violation × ConsequenceDict)) :
    (successBranch now oid items order1 customer game1 cache).order =
      some { order1 with status := OrderStatus.SERVED } := rfl

theorem successCustomer_history (now : Nat) (oid : String) (items : List String)
    (customer : CustomerProfile) (order1 : Order) :
    (successCustomer now oid items customer order1).satisfaction_history =
      customer.satisfaction_history ++ [((successSat customer order1 : Int) : ℚ)] := by
  simp only [successCustomer]
  split
  · split <;> rfl
  · split <;> rfl
theorem violationWith_eq_ge30 (cq : ConsequenceDict) (vls : List Violation) (v : Violation)
    (now : Nat) (oid : String) (order1 : Order) (customer : CustomerProfile)
    (game1 : GameState) (cache : List (Violation × ConsequenceDict))
    (hlt : ¬ violationSat vls.length < 30) :
    violationWith cq vls v now oid order1 customer game1 cache =
      violationTail cq v (violationSat vls.length) now oid order1 customer.current_mood
        (setCustomer game1 order1.customer_id
          { customer with satisfaction_history :=
              customer.satisfaction_history ++ [((violationSat vls.length : Int) : ℚ)] })
        cache := by
  unfold violationWith
  rw [if_neg hlt]

theorem violationWith_err_lt30 (cq : ConsequenceDict) (vls : List Violation) (v : Violation)
    (now : Nat) (oid : String) (order1 : Order) (customer : CustomerProfile)
    (game1 : GameState) (cache : List (Violation × ConsequenceDict))
    (hlt : violationSat vls.length < 30) (hd : cq.description = none) :
    violationWith cq vls v now oid order1 customer game1 cache =
      ⟨Except.error ServeError.internalError,
       setCustomer game1 order1.customer_id
         { customer with satisfaction_history :=
             customer.satisfaction_history ++ [((violationSat vls.length : Int) : ℚ)] },
       cache, some order1⟩ := by
  unfold violationWith
  rw [if_pos hlt, hd]

theorem violationWith_ok (cq : ConsequenceDict) (vls : List Violation) (v : Violation)
    (now : Nat) (oid : String) (order1 : Order) (customer : CustomerProfile)
    (game1 : GameState) (cache : List (Violation × ConsequenceDict)) (r : ServeResult)
    (h : (violationWith cq vls v now oid order1 customer game1 cache).result = Except.ok r) :
    r.success = false ∧
      (violationWith cq vls v now oid order1 customer game1 cache).game.active_orders =
        game1.active_orders.filter (fun o => o.id != oid) ∧
      (violationWith cq vls v now oid order1 customer game1 cache).cache = cache := by
  by_cases hlt : violationSat vls.length < 30
  · rcases hd : cq.description with _ | d
    · rw [violationWith_err_lt30 cq vls v now oid order1 customer game1 cache hlt hd] at h
      simp at h
    · obtain ⟨g', he, -, -, -, -, hact, -⟩ :=
        violationWith_eq cq vls v now oid order1 customer game1 cache d hd
      rw [he] at h ⊢
      obtain ⟨h1, h2, h3, -⟩ := violationTail_ok _ _ _ _ _ _ _ _ _ _ h
      rw [hact] at h2
      exact ⟨h1, h2, h3⟩
  · rw [violationWith_eq_ge30 cq vls v now oid order1 customer game1 cache hlt] at h ⊢
    obtain ⟨h1, h2, h3, -⟩ := violationTail_ok _ _ _ _ _ _ _ _ _ _ h
    exact ⟨h1, h2, h3⟩

theorem violationBranch_ok (gen : RestrictionType → ConsequenceDict) (vls : List Violation)
    (v : Violation) (now : Nat) (oid : String) (order1 : Order)
    (customer : CustomerProfile) (game1 : GameState)
    (cache : List (Violation × ConsequenceDict)) (r : ServeResult)
    (h : (violationBranch gen vls v now oid order1 customer game1 cache).result =
      Except.ok r) :
    r.success = false ∧
      (violationBranch gen vls v now oid order1 customer game1 cache).game.active_orders =
        game1.active_orders.filter (fun o => o.id != oid) := by
  rcases hcq : lookupD v cache with _ | cq0
  · rcases v with _ | r
    · rw [violationBranch_miss_wrong gen vls now oid order1 customer game1 cache hcq] at h
      simp at h
    · rw [violationBranch_miss_dietary gen vls r now oid order1 customer game1 cache hcq]
        at h ⊢
      obtain ⟨h1, h2, -⟩ := violationWith_ok _ _ _ _ _ _ _ _ _ _ h
      exact ⟨h1, h2⟩
  · rw [violationBranch_hit gen vls v now oid order1 customer game1 cache cq0 hcq] at h ⊢
    obtain ⟨h1, h2, -⟩ := violationWith_ok _ _ _ _ _ _ _ _ _ _ h
    exact ⟨h1, h2⟩

theorem serve_ok_removed (gen : RestrictionType → ConsequenceDict) (inj : Option RestrictionType)
    (now : Nat) (oid : String) (items : List String) (st : ServeState) (r : ServeResult)
    (h : (serve_order gen inj now oid items st).result = Except.ok r) :
    (∃ o ∈ st.game.active_orders, o.id = oid) ∧
      (∀ o ∈ (serve_order gen inj now oid items st).game.active_orders, o.id ≠ oid) := by
  rcases hfind : st.game.active_orders.find? (fun x => x.id == oid) with _ | order0
  · rw [serve_order_no_order gen inj now oid items st hfind] at h
    simp at h
  · have hbeq := List.find?_some hfind
    have hpre : ∃ o ∈ st.game.active_orders, o.id = oid :=
      ⟨order0, List.mem_of_find?_eq_some hfind, beq_iff_eq.mp hbeq⟩
    rw [serve_order_found gen inj now oid items st order0 hfind] at h ⊢
    rcases hcust : lookupD order0.customer_id st.game.customers with _ | customer
    · rw [serveFound_no_customer gen inj now oid items st order0 hcust] at h
      simp at h
    rcases hdet : detectViolations items order0.items_ordered inj with _ | ⟨v, vs⟩
    · rw [serveFound_success gen inj now oid items st order0 customer hcust hdet] at h ⊢
      refine ⟨hpre, ?_⟩
      rw [successBranch_game]
      intro o ho
      exact bne_iff_ne.mp (List.mem_filter.mp ho).2
    · rw [serveFound_violation gen inj now oid items st order0 customer v vs hcust hdet]
        at h ⊢
      obtain ⟨-, hact⟩ := violationBranch_ok _ _ _ _ _ _ _ _ _ _ h
      refine ⟨hpre, ?_⟩
      rw [hact]
      intro o ho
      exact bne_iff_ne.mp (List.mem_filter.mp ho).2

/-- C7: a serve that resolves (either branch) implies the order was in
active_orders before the call and is absent after it, and a second serve
of the same order id against the resulting state fails with NotFound. -/
theorem serve_removes_order_and_second_not_found (gen gen2 : RestrictionType → ConsequenceDict)
    (inj inj2 : Option RestrictionType) (now now2 : Nat) (oid : String)
    (items items2 : List String) (st : ServeState) (r : ServeResult)
    (h : (serve_order gen inj now oid items st).result = Except.ok r) :
    (∃ o ∈ st.game.active_orders, o.id = oid)
    ∧ (∀ o ∈ (serve_order gen inj now oid items st).game.active_orders, o.id ≠ oid)
    ∧ (serve_order gen2 inj2 now2 oid items2
        { game := (serve_order gen inj now oid items st).game,
          cache := (serve_order gen inj now oid items st).cache }).result =
        Except.error ServeError.notFoundOrder := by
  obtain ⟨hpre, hrem⟩ := serve_ok_removed gen inj now oid items st r h
  refine ⟨hpre, hrem, ?_⟩
  have hnone : (serve_order gen inj now oid items st).game.active_orders.find?
      (fun x => x.id == oid) = none := by
    rw [List.find?_eq_none]
    intro o ho hb
    exact hrem o ho (beq_iff_eq.mp hb)
  rw [serve_order_no_order gen2 inj2 now2 oid items2
      { game := (serve_order gen inj now oid items st).game,
        cache := (serve_order gen inj now oid items st).cache } hnone]

/-- C8: for a successful serve (no violation), the computed tip lies in
[0, total_price × tip_tendency] and reward.money = total_price + tip
exactly. -/
theorem serve_success_tip_bounds (gen : RestrictionType → ConsequenceDict)
    (inj : Option RestrictionType) (now : Nat) (oid : String) (items : List String)
    (st : ServeState) (order0 : Order) (customer : CustomerProfile) (r : ServeResult)
    (hfind : st.game.active_orders.find? (fun x => x.id == oid) = some order0)
    (hcust : lookupD order0.customer_id st.game.customers = some customer)
    (htp : 0 ≤ order0.total_price) (htt : 0 ≤ customer.tip_tendency)
    (hok : (serve_order gen inj now oid items st).result = Except.ok r)
    (hsucc : r.success = true) :
    ∃ rwd : Reward, r.reward = some rwd ∧ 0 ≤ rwd.tip
      ∧ rwd.tip ≤ order0.total_price * customer.tip_tendency
      ∧ rwd.money = order0.total_price + rwd.tip := by
  rw [serve_order_found gen inj now oid items st order0 hfind] at hok
  rcases hdet : detectViolations items order0.items_ordered inj with _ | ⟨v, vs⟩
  · rw [serveFound_success gen inj now oid items st order0 customer hcust hdet,
        successBranch_result] at hok
    have hr := Except.ok.inj hok
    have hsat := successSat_range customer (orderWithWait order0 now)
    have hcast0 : (0 : ℚ) ≤ ((successSat customer (orderWithWait order0 now) : Int) : ℚ) := by
      exact_mod_cast hsat.1
    have hcast100 : ((successSat customer (orderWithWait order0 now) : Int) : ℚ) ≤ 100 := by
      exact_mod_cast hsat.2
    have htip0 : 0 ≤ successTip customer (orderWithWait order0 now) := by
      unfold successTip
      refine mul_nonneg (mul_nonneg ?_ htt) (div_nonneg hcast0 (by norm_num))
      exact htp
    have htip1 : successTip customer (orderWithWait order0 now) ≤
        order0.total_price * customer.tip_tendency := by
      unfold successTip
      have h1 : ((successSat customer (orderWithWait order0 now) : Int) : ℚ) / 100 ≤ 1 :=
        (div_le_one (by norm_num)).mpr hcast100
      exact mul_le_of_le_one_right (mul_nonneg htp htt) h1
    refine ⟨{ money := order0.total_price + successTip customer (orderWithWait order0 now),
              tip := successTip customer (orderWithWait order0 now),
              score := 100 + successSat customer (orderWithWait order0 now) / 2 },
            ?_, htip0, htip1, rfl⟩
    rw [← hr]
    rfl
  · rw [serveFound_violation gen inj now oid items st order0 customer v vs hcust hdet]
      at hok
    obtain ⟨hfalse, -⟩ := violationBranch_ok _ _ _ _ _ _ _ _ _ _ hok
    rw [hfalse] at hsucc
    exact absurd hsucc (by simp)

theorem successTip_nonneg (customer : CustomerProfile) (o1 : Order)
    (htp : 0 ≤ o1.total_price) (htt : 0 ≤ customer.tip_tendency) :
    0 ≤ successTip customer o1 := by
  unfold successTip
  refine mul_nonneg (mul_nonneg htp htt) (div_nonneg ?_ (by norm_num))
  exact_mod_cast (successSat_range customer o1).1

theorem violationTail_invariant (cq : ConsequenceDict) (v : Violation) (sat : Int)
    (now : Nat) (oid : String) (order1 : Order) (mood : MoodState) (g : GameState)
    (cache : List (Violation × ConsequenceDict))
    (hms : moneyScoreOK g) (hrep : g.reputation ≤ 100) (hhist : satHistOK g) :
    moneyScoreOK (violationTail cq v sat now oid order1 mood g cache).game
      ∧ (violationTail cq v sat now oid order1 mood g cache).game.reputation ≤ 100
      ∧ satHistOK (violationTail cq v sat now oid order1 mood g cache).game := by
  rcases hs : cq.score_impact with _ | si
  · simp only [violationTail, hs]
    exact ⟨hms, hrep, hhist⟩
  rcases hm : cq.money_impact with _ | mi
  · simp only [violationTail, hs, hm]
    exact ⟨⟨hms.1, le_max_left _ _⟩, hrep, hhist⟩
  rcases hd : cq.description with _ | d
  · simp only [violationTail, hs, hm, hd]
    exact ⟨⟨le_max_left _ _, le_max_left _ _⟩,
           max_le (by norm_num) (min_le_left _ _), hhist⟩
  · rw [violationTail_eq cq v sat now oid order1 mood g cache d si mi hd hs hm]
    exact ⟨⟨le_max_left _ _, le_max_left _ _⟩,
           max_le (by norm_num) (min_le_left _ _), hhist⟩

theorem violationWith_invariant (cq : ConsequenceDict) (vls : List Violation)
    (v : Violation) (now : Nat) (oid : String) (order1 : Order)
    (customer : CustomerProfile) (game1 : GameState)
    (cache : List (Violation × ConsequenceDict))
    (hms : moneyScoreOK game1) (hrep : game1.reputation ≤ 100) (hhist : satHistOK game1)
    (hc : ∀ s ∈ customer.satisfaction_history, 0 ≤ s ∧ s ≤ 100) :
    moneyScoreOK (violationWith cq vls v now oid order1 customer game1 cache).game
      ∧ (violationWith cq vls v now oid order1 customer game1 cache).game.reputation ≤ 100
      ∧ satHistOK (violationWith cq vls v now oid order1 customer game1 cache).game := by
  have hrange := violationSat_range vls.length
  have happ : ∀ s ∈ customer.satisfaction_history ++
      [((violationSat vls.length : Int) : ℚ)], 0 ≤ s ∧ s ≤ 100 := by
    intro s hs
    rcases List.mem_append.mp hs with hs1 | hs2
    · exact hc s hs1
    · rcases List.mem_singleton.mp hs2 with rfl
      constructor
      · exact_mod_cast hrange.1
      · exact_mod_cast hrange.2
  by_cases hlt : violationSat vls.length < 30
  · rcases hd : cq.description with _ | d
    · rw [violationWith_err_lt30 cq vls v now oid order1 customer game1 cache hlt hd]
      exact ⟨hms, hrep, satHistOK_setCustomer _ _ _ hhist happ⟩
    · obtain ⟨g', he, hsc, hmo, hrp, -, -, hok⟩ :=
        violationWith_eq cq vls v now oid order1 customer game1 cache d hd
      rw [he]
      refine violationTail_invariant _ _ _ _ _ _ _ _ _ ?_ ?_ (hok hhist hc)
      · exact ⟨by rw [hmo]; exact hms.1, by rw [hsc]; exact hms.2⟩
      · rw [hrp]; exact hrep
  · rw [violationWith_eq_ge30 cq vls v now oid order1 customer game1 cache hlt]
    exact violationTail_invariant _ _ _ _ _ _ _ _ _ hms hrep
      (satHistOK_setCustomer _ _ _ hhist happ)

theorem violationBranch_invariant (gen : RestrictionType → ConsequenceDict)
    (vls : List Violation) (v : Violation) (now : Nat) (oid : String) (order1 : Order)
    (customer : CustomerProfile) (game1 : GameState)
    (cache : List (Violation × ConsequenceDict))
    (hms : moneyScoreOK game1) (hrep : game1.reputation ≤ 100) (hhist : satHistOK game1)
    (hc : ∀ s ∈ customer.satisfaction_history, 0 ≤ s ∧ s ≤ 100) :
    moneyScoreOK (violationBranch gen vls v now oid order1 customer game1 cache).game
      ∧ (violationBranch gen vls v now oid order1 customer game1 cache).game.reputation ≤ 100
      ∧ satHistOK (violationBranch gen vls v now oid order1 customer game1 cache).game := by
  rcases hcq : lookupD v cache with _ | cq0
  · rcases v with _ | r
    · rw [violationBranch_miss_wrong gen vls now oid order1 customer game1 cache hcq]
      exact ⟨hms, hrep, hhist⟩
    · rw [violationBranch_miss_dietary gen vls r now oid order1 customer game1 cache hcq]
      exact violationWith_invariant _ _ _ _ _ _ _ _ _ hms hrep hhist hc
  · rw [violationBranch_hit gen vls v now oid order1 customer game1 cache cq0 hcq]
    exact violationWith_invariant _ _ _ _ _ _ _ _ _ hms hrep hhist hc

theorem lookupD_satHist (g : GameState) (cid : String) (c : CustomerProfile)
    (hg : satHistOK g) (h : lookupD cid g.customers = some c) :
    ∀ s ∈ c.satisfaction_history, 0 ≤ s ∧ s ≤ 100 :=
  @lookupD_prop String CustomerProfile _
    (fun c0 => ∀ s ∈ c0.satisfaction_history, 0 ≤ s ∧ s ≤ 100)
    g.customers cid c (fun p hp => hg p hp) h

theorem lookupD_tip (g : GameState) (cid : String) (c : CustomerProfile)
    (hg : tipTendencyOK g) (h : lookupD cid g.customers = some c) :
    0 ≤ c.tip_tendency :=
  @lookupD_prop String CustomerProfile _ (fun c0 => 0 ≤ c0.tip_tendency)
    g.customers cid c (fun p hp => hg p hp) h

/-- C3 (amended): after every serve call (any branch, errors included)
from a state with non-negative money/score, reputation ≤ 100, in-range
satisfaction histories, non-negative order prices and tip tendencies:
money and score stay non-negative, reputation stays ≤ 100, and every
recorded satisfaction value stays in [0,100].  The lower bound
reputation ≥ 0 is NOT preserved by the success branch (see the
counterexample `serve_reputation_floor_cex`): that branch only applies
the upper clamp `min(100, ...)`. -/
theorem serve_preserves_amended_invariant (gen : RestrictionType → ConsequenceDict)
    (inj : Option RestrictionType) (now : Nat) (oid : String) (items : List String)
    (st : ServeState)
    (hms : moneyScoreOK st.game) (hrep : st.game.reputation ≤ 100)
    (hhist : satHistOK st.game) (hprice : ordersPriceOK st.game)
    (htt : tipTendencyOK st.game) :
    moneyScoreOK (serve_order gen inj now oid items st).game
    ∧ (serve_order gen inj now oid items st).game.reputation ≤ 100
    ∧ satHistOK (serve_order gen inj now oid items st).game := by
  rcases hfind : st.game.active_orders.find? (fun x => x.id == oid) with _ | order0
  · rw [serve_order_no_order gen inj now oid items st hfind]
    exact ⟨hms, hrep, hhist⟩
  rw [serve_order_found gen inj now oid items st order0 hfind]
  rcases hcust : lookupD order0.customer_id st.game.customers with _ | customer
  · rw [serveFound_no_customer gen inj now oid items st order0 hcust]
    exact ⟨hms, hrep, hhist⟩
  have hcustHist : ∀ s ∈ customer.satisfaction_history, 0 ≤ s ∧ s ≤ 100 :=
    lookupD_satHist st.game order0.customer_id customer hhist hcust
  rcases hdet : detectViolations items order0.items_ordered inj with _ | ⟨v, vs⟩
  · rw [serveFound_success gen inj now oid items st order0 customer hcust hdet,
        successBranch_game]
    have htp : 0 ≤ order0.total_price := hprice order0 (List.mem_of_find?_eq_some hfind)
    have htt0 : 0 ≤ customer.tip_tendency :=
      lookupD_tip st.game order0.customer_id customer htt hcust
    have htip := successTip_nonneg customer (orderWithWait order0 now) htp htt0
    have hsat := successSat_range customer (orderWithWait order0 now)
    have hc2 : ∀ s ∈ (successCustomer now oid items customer
        (orderWithWait order0 now)).satisfaction_history, 0 ≤ s ∧ s ≤ 100 := by
      intro s hs
      rw [successCustomer_history] at hs
      rcases List.mem_append.mp hs with hs1 | hs2
      · exact hcustHist s hs1
      · rcases List.mem_singleton.mp hs2 with rfl
        constructor
        · exact_mod_cast hsat.1
        · exact_mod_cast hsat.2
    refine ⟨⟨?_, ?_⟩, ?_, ?_⟩
    · exact add_nonneg hms.1 (add_nonneg htp htip)
    · refine add_nonneg hms.2 (add_nonneg (by norm_num) ?_)
      exact Int.ediv_nonneg hsat.1 (by norm_num)
    · exact min_le_left _ _
    · exact satHistOK_setCustomer (updOrder st.game oid (orderWithWait order0 now))
        (orderWithWait order0 now).customer_id
        (successCustomer now oid items customer (orderWithWait order0 now)) hhist hc2
  · rw [serveFound_violation gen inj now oid items st order0 customer v vs hcust hdet]
    exact violationBranch_invariant gen (v :: vs) v now oid (orderWithWait order0 now)
      customer (updOrder st.game oid (orderWithWait order0 now)) st.cache
      hms hrep hhist hcustHist
/-- Witness for C3 (amended) at a concrete serve from a valid state. -/
theorem serve_preserves_amended_invariant_witness :
    moneyScoreOK (serve_order gen0 none 0 "o1" ["A", "B"] st0).game
    ∧ (serve_order gen0 none 0 "o1" ["A", "B"] st0).game.reputation ≤ 100
    ∧ satHistOK (serve_order gen0 none 0 "o1" ["A", "B"] st0).game :=
  serve_preserves_amended_invariant gen0 none 0 "o1" ["A", "B"] st0
    ⟨by with_unfolding_all decide, by with_unfolding_all decide⟩
    (by with_unfolding_all decide)
    (by intro p hp s hs; simp [st0, game0, cust0] at hp; rw [hp] at hs; simp at hs)
    (by intro o ho; simp [st0, game0] at ho; rw [ho]; with_unfolding_all decide)
    (by intro p hp; simp [st0, game0, cust0] at hp; rw [hp]; with_unfolding_all decide)

/-- Witness for C7 at a concrete successful serve followed by a retry. -/
theorem serve_removes_order_and_second_not_found_witness :
    (∃ o ∈ st0.game.active_orders, o.id = "o1")
    ∧ (∀ o ∈ (serve_order gen0 none 0 "o1" ["A", "B"] st0).game.active_orders, o.id ≠ "o1")
    ∧ (serve_order gen0 none 0 "o1" ["A", "B"]
        { game := (serve_order gen0 none 0 "o1" ["A", "B"] st0).game,
          cache := (serve_order gen0 none 0 "o1" ["A", "B"] st0).cache }).result =
        Except.error ServeError.notFoundOrder :=
  serve_removes_order_and_second_not_found gen0 gen0 none none 0 0 "o1"
    ["A", "B"] ["A", "B"] st0 r0 (by with_unfolding_all rfl)

/-- Witness for C8 at a concrete successful serve. -/
theorem serve_success_tip_bounds_witness :
    ∃ rwd : Reward, r0.reward = some rwd ∧ 0 ≤ rwd.tip
      ∧ rwd.tip ≤ ord0.total_price * cust0.tip_tendency
      ∧ rwd.money = ord0.total_price + rwd.tip :=
  serve_success_tip_bounds gen0 none 0 "o1" ["A", "B"] st0 ord0 cust0 r0
    rfl rfl (by with_unfolding_all decide) (by with_unfolding_all decide)
    (by with_unfolding_all rfl) rfl

theorem detectViolations_eq_nil (items ordered : List String)
    (hsub : ∀ i ∈ items, i ∈ ordered) :
    detectViolations items ordered none = [] := by
  unfold detectViolations
  simp only [List.append_nil]
  rw [List.map_eq_nil_iff, List.filter_eq_nil_iff]
  intro a ha
  simp only [Bool.not_eq_true', Bool.not_eq_false]
  exact (contains_iff_mem ordered a).mpr (hsub a ha)

/-- C1 (amended): a serve whose served items are all among the order's
ordered items — in particular one that is merely MISSING one of the
ordered items — is NOT detected as a violation (see the counterexample
`serve_missing_item_success_cex`): with the stochastic injection not
triggered no violation is detected at all and the serve resolves via the
success branch: success=true, the order's status becomes SERVED, the order
is removed from active_orders, and money/score/reputation are updated per
the success formulas.  (A violation is detected only when some served item
is NOT among the ordered items, and even then the branch cannot complete —
see C2.) -/
theorem serve_missing_item_success_formulas (gen : RestrictionType → ConsequenceDict)
    (now : Nat) (oid : String) (items : List String) (st : ServeState)
    (order0 : Order) (customer : CustomerProfile)
    (hfind : st.game.active_orders.find? (fun x => x.id == oid) = some order0)
    (hcust : lookupD order0.customer_id st.game.customers = some customer)
    (hsub : ∀ i ∈ items, i ∈ order0.items_ordered) :
    detectViolations items order0.items_ordered none = []
    ∧ ∃ r, (serve_order gen none now oid items st).result = Except.ok r
      ∧ r.success = true
      ∧ ((serve_order gen none now oid items st).order).map Order.status =
          some OrderStatus.SERVED
      ∧ (∀ o ∈ (serve_order gen none now oid items st).game.active_orders, o.id ≠ oid)
      ∧ (serve_order gen none now oid items st).game.score =
          st.game.score + (100 + successSat customer (orderWithWait order0 now) / 2)
      ∧ (serve_order gen none now oid items st).game.money =
          st.game.money +
            (order0.total_price + successTip customer (orderWithWait order0 now))
      ∧ (serve_order gen none now oid items st).game.reputation =
          min 100 (st.game.reputation +
            (((successSat customer (orderWithWait order0 now) : Int) : ℚ) - 50) / 20) := by
  have hdet := detectViolations_eq_nil items order0.items_ordered hsub
  refine ⟨hdet, ?_⟩
  rw [serve_order_found gen none now oid items st order0 hfind,
      serveFound_success gen none now oid items st order0 customer hcust hdet]
  refine ⟨{ success := true, consequence := none,
            reward := some
              { money := order0.total_price + successTip customer (orderWithWait order0 now),
                tip := successTip customer (orderWithWait order0 now),
                score := 100 + successSat customer (orderWithWait order0 now) / 2 },
            customer_satisfaction := successSat customer (orderWithWait order0 now),
            customer_mood := customer.current_mood },
          rfl, rfl, rfl, ?_, rfl, rfl, rfl⟩
  rw [successBranch_game]
  intro o ho
  exact bne_iff_ne.mp (List.mem_filter.mp ho).2

/-- Witness for C1 (amended): serving only "A" against the order for
["A", "B"]. -/
theorem serve_missing_item_success_formulas_witness :
    detectViolations ["A"] ord0.items_ordered none = []
    ∧ ∃ r, (serve_order gen0 none 0 "o1" ["A"] st0).result = Except.ok r
      ∧ r.success = true
      ∧ ((serve_order gen0 none 0 "o1" ["A"] st0).order).map Order.status =
          some OrderStatus.SERVED
      ∧ (∀ o ∈ (serve_order gen0 none 0 "o1" ["A"] st0).game.active_orders, o.id ≠ "o1")
      ∧ (serve_order gen0 none 0 "o1" ["A"] st0).game.score =
          st0.game.score + (100 + successSat cust0 (orderWithWait ord0 0) / 2)
      ∧ (serve_order gen0 none 0 "o1" ["A"] st0).game.money =
          st0.game.money + (ord0.total_price + successTip cust0 (orderWithWait ord0 0))
      ∧ (serve_order gen0 none 0 "o1" ["A"] st0).game.reputation =
          min 100 (st0.game.reputation +
            (((successSat cust0 (orderWithWait ord0 0) : Int) : ℚ) - 50) / 20) :=
  serve_missing_item_success_formulas gen0 0 "o1" ["A"] st0 ord0 cust0
    rfl rfl (by decide)

/-- C2: a wrong-item serve never completes the violation branch.  The
violation IS detected (the violations list is headed by the plain string
"WRONG_ITEM"), but `generate_consequence` reads `violation.value` before
its try block and a plain string has no `.value`, so with the key not in
the consequence cache the serve raises and returns a 500: no consequence
is generated or cached, the order's status stays PENDING, the order stays
in active_orders, and the game state is unchanged — contradicting the
claimed success=false / FAILED / cached-consequence completion.  Evaluated
at the failing input (serving ["C"] against the order for ["A", "B"]). -/
theorem serve_wrong_item_crashes :
    (serve_order gen0 none 2 "o1" ["C"] st0).result =
        Except.error ServeError.internalError
    ∧ (serve_order gen0 none 2 "o1" ["C"] st0).game = st0.game
    ∧ ((serve_order gen0 none 2 "o1" ["C"] st0).order).map Order.status =
        some OrderStatus.PENDING
    ∧ ((serve_order gen0 none 2 "o1" ["C"] st0).game.active_orders.map Order.id) = ["o1"]
    ∧ (serve_order gen0 none 2 "o1" ["C"] st0).cache = [] := by
  exact ⟨by with_unfolding_all rfl, by with_unfolding_all rfl,
         by with_unfolding_all rfl, by with_unfolding_all rfl,
         by with_unfolding_all rfl⟩
